import Mathlib

/-!
Shallow embedding of the winterfresh listener scripts
(src/volume.py, src/wake.py, src/shutdown_listener.py).

Python strings are modelled as Lean String (lowercase via String.toLower,
strip via String.trim, the in operator on strings via strContains below,
the in operator on lists via inList below).  16-bit PCM byte buffers are
List Nat (one entry per byte); decoding to signed samples and the numpy
reshape are explicit and Option-valued, mirroring the fact that
np.frombuffer and reshape raise on ill-sized buffers.  Word confidences
are modelled as rationals.
-/

namespace Winterfresh

/-- Python str.lower(): lowercase each character (character-level map over
the string data, as the builtin does for the ASCII command phrases). -/
def pyLower (s : String) : String :=
  String.mk (s.data.map Char.toLower)

/-- Python str.strip(): drop whitespace from both ends. -/
def pyStrip (s : String) : String :=
  String.mk (((s.data.dropWhile Char.isWhitespace).reverse.dropWhile
    Char.isWhitespace).reverse)

/-- Python needle in hay for strings: needle occurs as a contiguous
substring of hay. -/
def strContains (hay needle : String) : Bool :=
  hay.data.tails.any (fun t => needle.data.isPrefixOf t)

/-- Python x in l for a list of strings (membership by string equality). -/
def inList (t : String) : List String → Bool
  | [] => false
  | p :: ps => (t == p) || inList t ps

/-- Count the maximal whitespace-separated runs of a character list. -/
def countWords : List Char → Bool → Nat
  | [], _ => 0
  | c :: cs, inWord =>
    if Char.isWhitespace c then countWords cs false
    else (if inWord then 0 else 1) + countWords cs true

/-- Python len(text.split()): the number of whitespace-separated words. -/
def wordCount (s : String) : Nat :=
  countWords s.data false

/-- A strict (proper) substring relation on strings. -/
def properSubstring (a b : String) : Prop :=
  strContains b a = true ∧ a ≠ b

/-! ## 16-bit little-endian PCM codec (np.frombuffer / tobytes) -/

/-- Decode one little-endian int16 sample from two bytes. -/
def toI16 (lo hi : Nat) : Int :=
  let u : Nat := lo % 256 + 256 * (hi % 256)
  if u < 32768 then (u : Int) else (u : Int) - 65536

/-- np.frombuffer(raw, dtype=np.int16): fails (none) on an odd byte count. -/
def decodeI16 : List Nat → Option (List Int)
  | [] => some []
  | [_] => none
  | lo :: hi :: rest => (decodeI16 rest).map (fun l => toI16 lo hi :: l)

/-- Encode one int16 sample back to two little-endian bytes (wrapping,
as astype(np.int16) does). -/
def encI16 (v : Int) : List Nat :=
  let u : Nat := (v % 65536).toNat
  [u % 256, u / 256]

/-- pcm.tobytes() for a list of int16 samples. -/
def encodeI16 (l : List Int) : List Nat :=
  (l.map encI16).flatten

/-- Fuelled worker splitting a sample list into rows of width c+1; the
fuel is an upper bound on the list length, so recursion is structural. -/
def chunksFuel (c : Nat) : Nat → List Int → List (List Int)
  | _, [] => []
  | 0, _ :: _ => []
  | fuel + 1, x :: xs => (x :: xs.take c) :: chunksFuel c fuel (xs.drop c)

/-- Split a sample list into rows of width c+1 (helper for reshape). -/
def chunksOfPos (c : Nat) (l : List Int) : List (List Int) :=
  chunksFuel c l.length l

/-- numpy reshape(-1, ch): fails unless the sample count divides evenly. -/
def reshapeRows (ch : Nat) (l : List Int) : Option (List (List Int)) :=
  match ch with
  | 0 => none
  | c + 1 => if l.length % (c + 1) = 0 then some (chunksOfPos c l) else none

/-! ## Downmix variants

src/shutdown_listener.py downmix_to_mono keeps channel 0
(pcm.reshape(-1, channels)[:, 0]); src/wake.py and src/volume.py share an
identical downmix_to_mono that averages the channels
(pcm.reshape(-1, channels).mean(axis=1).astype(np.int16), the float mean
truncated toward zero by the int16 cast, hence Int.div). -/

/-- downmix_to_mono from src/shutdown_listener.py (channel-0 selection). -/
def downmix_to_mono_first (raw : List Nat) (channels : Nat) : Option (List Nat) :=
  match decodeI16 raw with
  | none => none
  | some pcm =>
    if 1 < channels then
      match reshapeRows channels pcm with
      | none => none
      | some rows => some (encodeI16 (rows.map (fun row => row.headD 0)))
    else some (encodeI16 pcm)

/-- downmix_to_mono from src/wake.py and src/volume.py (channel averaging). -/
def downmix_to_mono_mean (raw : List Nat) (channels : Nat) : Option (List Nat) :=
  match decodeI16 raw with
  | none => none
  | some pcm =>
    if 1 < channels then
      match reshapeRows channels pcm with
      | none => none
      | some rows =>
        some (encodeI16 (rows.map (fun row => Int.tdiv row.sum (channels : Int))))
    else some (encodeI16 pcm)

/-- Fuelled worker for the specification-side channel-0 policy. -/
def specSelGo (ch : Nat) : Nat → List Int → List Int
  | _, [] => []
  | 0, _ :: _ => []
  | fuel + 1, x :: xs => x :: specSelGo ch fuel (xs.drop (ch - 1))

/-- Specification-side downmix policy, following the words of the spec:
selects a fixed channel (channel 0) from the interleaved sample stream. -/
def specSelectChannel0 (ch : Nat) (l : List Int) : List Int :=
  specSelGo ch l.length l

/-- Fuelled worker for the specification-side averaging policy. -/
def specMeanGo (ch : Nat) : Nat → List Int → List Int
  | _, [] => []
  | 0, _ :: _ => []
  | fuel + 1, x :: xs =>
    Int.tdiv (x :: xs.take (ch - 1)).sum (ch : Int) ::
      specMeanGo ch fuel (xs.drop (ch - 1))

/-- Specification-side averaging policy: the truncated mean of each group
of ch interleaved samples. -/
def specChannelMean (ch : Nat) (l : List Int) : List Int :=
  specMeanGo ch l.length l

/-! ## src/volume.py -/

/-- The number_map dict of parse_volume_level, in insertion order. -/
def number_map : List (String × Nat) :=
  [("one", 1), ("two", 2), ("three", 3), ("four", 4), ("five", 5),
   ("six", 6), ("seven", 7), ("eight", 8), ("nine", 9), ("ten", 10)]

/-- parse_volume_level from src/volume.py: lowercase the text, then return
the value of the first number word occurring in it, else none. -/
def parse_volume_level (text : String) : Option Nat :=
  let t := pyLower text
  (number_map.find? (fun p => strContains t p.1)).map (fun p => p.2)

/-! ## src/shutdown_listener.py phrase classification -/

/-- SHUTDOWN_PHRASES with the default ASSISTANT_NAME env value
"Winter fresh" (lowercased in the two f-string phrases). -/
def SHUTDOWN_PHRASES : List String :=
  ["winter fresh stop",
   "hey winter fresh stop",
   "stop",
   "be quiet",
   "quiet",
   "enough",
   "thats enough",
   "i got it",
   "got it",
   "never mind",
   "nevermind",
   "go away",
   "go to sleep",
   "goodbye",
   "bye"]

/-- Output actions of one loop iteration: the protocol token printed to
stdout, an advisory diagnostic line, a diagnostic on stderr, or the
external volume action (set_volume). -/
inductive OutAct where
  | token : String → OutAct
  | diag : OutAct
  | errDiag : OutAct
  | volumeAction : Nat → OutAct
deriving DecidableEq

/-- What one loop iteration decides for the session. -/
inductive Outcome where
  | cont : Outcome
  | exitCode : Nat → Outcome
  | crashed : Outcome
deriving DecidableEq

/-- handle_result from src/shutdown_listener.py, with the lines it prints:
lowercase and strip the text; empty text matches nothing; text equal to a
configured phrase prints the SHUTDOWN token and matches; anything else
prints a diagnostic and does not match. -/
def handle_result_full (text : String) : List OutAct × Bool :=
  let t := pyStrip (pyLower text)
  if t = "" then ([], false)
  else if inList t SHUTDOWN_PHRASES then ([.diag, .token "SHUTDOWN"], true)
  else ([.diag], false)

/-- The boolean returned by handle_result. -/
def handle_result (text : String) : Bool :=
  (handle_result_full text).2

/-! ## src/wake.py open-vocabulary filtering -/

/-- WAKE_WORDS from src/wake.py. -/
def WAKE_WORDS : List String :=
  ["hey winter fresh",
   "hey when to fresh",
   "hey when a fresh",
   "hey when the fresh",
   "hey winner fresh",
   "hey winter fest"]

/-- One entry of the decoder result list: w.get("conf", 1.0) supplies a
default confidence of 1 when absent. -/
structure WordInfo where
  conf : Option Rat
deriving DecidableEq

/-- A final decoder hypothesis: the text plus the optional word list. -/
structure FinalResult where
  text : String
  result : List WordInfo
deriving DecidableEq

/-- The confidences list comprehension of should_wake. -/
def confList (ws : List WordInfo) : List Rat :=
  ws.map (fun w => (w.conf).getD 1)

/-- avg_conf of should_wake: sum divided by length, 0 for an empty list. -/
def avgConf (ws : List WordInfo) : Rat :=
  let cs := confList ws
  if cs.length = 0 then 0 else cs.sum / (cs.length : Rat)

/-- should_wake from src/wake.py, parametrised by the configured
MAX_WAKE_WORDS and MIN_CONFIDENCE values. -/
def should_wake (maxWords : Nat) (minConf : Rat) (r : FinalResult) : Bool :=
  let text := pyStrip (pyLower r.text)
  if text = "" then false
  else if !(WAKE_WORDS.any (fun w => strContains text w)) then false
  else if maxWords < wordCount text then false
  else if r.result.isEmpty then true
  else if avgConf r.result < minConf then false
  else true

/-! ## One iteration of each main loop

Each run_linux_arecord loop body is modelled as a function of the bytes
the pipe read returned and of the opaque decoder outcome for this block
(none while the decoder has no final hypothesis).  A zero-length read is
the empty list.  An ill-sized buffer makes numpy raise inside
downmix_to_mono, which the scripts do not catch: Outcome.crashed. -/

/-- Loop body of run_linux_arecord in src/volume.py. -/
def volume_iter (ch : Nat) (raw : List Nat) (dec : Option String) :
    List OutAct × Outcome :=
  if raw = [] then ([.errDiag], .exitCode 1)
  else
    match downmix_to_mono_mean raw ch with
    | none => ([], .crashed)
    | some _ =>
      match dec with
      | none => ([], .cont)
      | some text =>
        let t := pyLower text
        if t = "" then ([], .cont)
        else
          match parse_volume_level t with
          | none => ([], .cont)
          | some lv => ([.diag, .volumeAction lv], .cont)

/-- Loop body of run_linux_arecord in src/wake.py. -/
def wake_iter (maxWords : Nat) (minConf : Rat) (ch : Nat)
    (raw : List Nat) (dec : Option FinalResult) : List OutAct × Outcome :=
  if raw = [] then ([.errDiag], .exitCode 1)
  else
    match downmix_to_mono_mean raw ch with
    | none => ([], .crashed)
    | some _ =>
      match dec with
      | none => ([.diag], .cont)
      | some r =>
        if pyLower r.text = "" then ([], .cont)
        else if should_wake maxWords minConf r then
          ([.diag, .token "WAKE"], .exitCode 0)
        else ([.diag], .cont)

/-- Loop body of run_linux_arecord in src/shutdown_listener.py (the
cleanup calls around its exits are modelled separately below). -/
def shutdown_iter (ch : Nat) (raw : List Nat) (dec : Option String) :
    List OutAct × Outcome :=
  if raw = [] then ([.errDiag], .exitCode 1)
  else
    match downmix_to_mono_first raw ch with
    | none => ([], .crashed)
    | some _ =>
      match dec with
      | none => ([], .cont)
      | some text =>
        let hr := handle_result_full text
        if hr.2 then (hr.1, .exitCode 0) else (hr.1, .cont)

/-- Default WAKE_BLOCK env value in all three scripts. -/
def BLOCK : Nat := 4000

/-- chunk_bytes = BLOCK * bytes_per_frame with bytes_per_frame = 2 * ch. -/
def chunk_bytes (ch : Nat) : Nat := BLOCK * (2 * ch)

/-! ## Cleanup and exit-route bookkeeping for src/shutdown_listener.py

run_linux_arecord wraps its loop in try/finally with cleanup() in the
finally block.  sys.exit raises SystemExit, so every exit route passes
through the finally block.  The direct calls before each sys.exit, per
route, come from: handle_result match (cleanup(); sys.exit(0)), the
signal handler on_signal (cleanup(); sys.exit(0)), and the zero-read
branch (stderr diagnostic; sys.exit(1), no direct cleanup call). -/

inductive ExitRoute where
  | phraseMatch : ExitRoute
  | signalInterrupt : ExitRoute
  | audioError : ExitRoute
deriving DecidableEq

inductive FinalAct where
  | cleanupCall : FinalAct
  | tokenOut : FinalAct
  | errOut : FinalAct
deriving DecidableEq

/-- Actions performed inside the try block before SystemExit propagates,
and the exit status carried by that SystemExit, per exit route. -/
def routeBodyActs : ExitRoute → List FinalAct × Nat
  | .phraseMatch => ([.tokenOut, .cleanupCall], 0)
  | .signalInterrupt => ([.cleanupCall], 0)
  | .audioError => ([.errOut], 1)

/-- The whole session: the try-block actions followed by the finally
block, which always runs cleanup() once more while SystemExit propagates. -/
def sessionActs (r : ExitRoute) : List FinalAct × Nat :=
  ((routeBodyActs r).1 ++ [.cleanupCall], (routeBodyActs r).2)

/-- How many times cleanup() runs on a given exit route. -/
def cleanupCount (r : ExitRoute) : Nat :=
  (sessionActs r).1.count .cleanupCall

/-! ## The cleanup() function body of src/shutdown_listener.py

cleanup() sends SIGTERM inside try/except, then polls in a loop bounded
by a 0.5 s deadline sleeping 0.05 s per iteration (at most 10 sleeps),
then sends SIGKILL inside try/except.  Exceptions raised by the process
calls are data in the model; time is discrete, one tick per sleep. -/

/-- The environment cleanup() runs against: what poll() returns at each
tick, and whether terminate()/kill() raise (e.g. ProcessLookupError). -/
structure ProcModel where
  pollExit : Nat → Option Int
  terminateRaises : Bool
  killRaises : Bool

inductive CAct where
  | sigterm : CAct
  | sleep50 : CAct
  | sigkill : CAct
deriving DecidableEq

/-- A raw process call: performs its action or raises. -/
def tryCall (raises : Bool) (a : CAct) : Except String (List CAct) :=
  if raises then Except.error "process call raised" else Except.ok [a]

/-- The try/except Exception: pass wrapper: a raised exception is
swallowed (the call was made but had no effect). -/
def catchPass (x : Except String (List CAct)) : Except String (List CAct) :=
  match x with
  | Except.error _ => Except.ok []
  | Except.ok l => Except.ok l

/-- Number of poll iterations inside the 0.5 s deadline at 0.05 s per
sleep. -/
def graceChecks : Nat := 10

/-- The while time.time() < deadline loop: poll, and sleep when the
process has not exited.  Returns the trace and whether cleanup() returned
early because poll() reported an exit code. -/
def pollLoop (p : ProcModel) (tick : Nat) : Nat → List CAct × Bool
  | 0 => ([], false)
  | fuel + 1 =>
    match p.pollExit tick with
    | some _ => ([], true)
    | none =>
      let rest := pollLoop p (tick + 1) fuel
      (CAct.sleep50 :: rest.1, rest.2)

/-- cleanup() from src/shutdown_listener.py over the process model. -/
def cleanup_model (p : ProcModel) : Except String (List CAct) :=
  match catchPass (tryCall p.terminateRaises .sigterm) with
  | Except.error e => Except.error e
  | Except.ok t1 =>
    let lp := pollLoop p 0 graceChecks
    if lp.2 then Except.ok (t1 ++ lp.1)
    else
      match catchPass (tryCall p.killRaises .sigkill) with
      | Except.error e => Except.error e
      | Except.ok t2 => Except.ok (t1 ++ lp.1 ++ t2)

/-- Two back-to-back cleanup() calls, the second running only if the
first did not raise. -/
def cleanup_twice (p : ProcModel) : Except String (List CAct) :=
  match cleanup_model p with
  | Except.error e => Except.error e
  | Except.ok t1 =>
    match cleanup_model p with
    | Except.error e => Except.error e
    | Except.ok t2 => Except.ok (t1 ++ t2)

/-! ## Helper lemmas -/

lemma inList_iff (t : String) : ∀ l : List String, inList t l = true ↔ t ∈ l := by
  intro l
  induction l with
  | nil => simp [inList]
  | cons p ps ih => simp [inList, ih, beq_iff_eq]

lemma handle_result_eq (text : String) :
    handle_result text =
      (if pyStrip (pyLower text) = "" then false
       else inList (pyStrip (pyLower text)) SHUTDOWN_PHRASES) := by
  unfold handle_result handle_result_full
  by_cases h : pyStrip (pyLower text) = ""
  · simp [h]
  · simp only [h, if_false]
    cases hin : inList (pyStrip (pyLower text)) SHUTDOWN_PHRASES <;> simp [hin]

lemma handle_result_full_acts_of_true (text : String)
    (h : (handle_result_full text).2 = true) :
    (handle_result_full text).1 = [OutAct.diag, OutAct.token "SHUTDOWN"] := by
  unfold handle_result_full at h ⊢
  by_cases h1 : pyStrip (pyLower text) = ""
  · simp [h1] at h
  · simp only [h1, if_false] at h ⊢
    cases hin : inList (pyStrip (pyLower text)) SHUTDOWN_PHRASES <;>
      simp [hin] at h ⊢

lemma parse_volume_level_range (text : String) (n : Nat)
    (h : parse_volume_level text = some n) : 1 ≤ n ∧ n ≤ 10 := by
  unfold parse_volume_level at h
  rw [Option.map_eq_some'] at h
  obtain ⟨p, hp, hn⟩ := h
  have hmem := List.mem_of_find?_eq_some hp
  have hall : ∀ q ∈ number_map, 1 ≤ q.2 ∧ q.2 ≤ 10 := by decide
  rw [← hn]
  exact hall p hmem

lemma pyStrip_ne_of (s : String) (h : pyStrip s ≠ "") : s ≠ "" := by
  intro he
  subst he
  exact h rfl

lemma should_wake_text_ne (maxW : Nat) (minC : Rat) (r : FinalResult)
    (h : should_wake maxW minC r = true) : pyStrip (pyLower r.text) ≠ "" := by
  intro he
  unfold should_wake at h
  rw [he] at h
  simp at h

lemma chunksFuel_headD (c : Nat) :
    ∀ (fuel : Nat) (l : List Int), l.length ≤ fuel →
      (chunksFuel c fuel l).map (fun row => row.headD 0) = specSelGo (c + 1) fuel l := by
  intro fuel
  induction fuel with
  | zero =>
    intro l h
    have hl : l = [] := List.eq_nil_of_length_eq_zero (Nat.le_zero.mp h)
    subst hl
    rfl
  | succ n ih =>
    intro l h
    cases l with
    | nil => rfl
    | cons x xs =>
      have hxs : xs.length ≤ n := by
        simp only [List.length_cons] at h
        omega
      have hx : (xs.drop c).length ≤ n := by
        simp only [List.length_drop]
        omega
      simp only [chunksFuel, specSelGo, List.map_cons, List.headD_cons,
        Nat.add_sub_cancel]
      rw [ih (xs.drop c) hx]

lemma chunksFuel_mean (c : Nat) :
    ∀ (fuel : Nat) (l : List Int), l.length ≤ fuel →
      (chunksFuel c fuel l).map
          (fun row => Int.tdiv row.sum ((c + 1 : Nat) : Int)) =
        specMeanGo (c + 1) fuel l := by
  intro fuel
  induction fuel with
  | zero =>
    intro l h
    have hl : l = [] := List.eq_nil_of_length_eq_zero (Nat.le_zero.mp h)
    subst hl
    rfl
  | succ n ih =>
    intro l h
    cases l with
    | nil => rfl
    | cons x xs =>
      have hxs : xs.length ≤ n := by
        simp only [List.length_cons] at h
        omega
      have hx : (xs.drop c).length ≤ n := by
        simp only [List.length_drop]
        omega
      simp only [chunksFuel, specMeanGo, List.map_cons, Nat.add_sub_cancel]
      rw [ih (xs.drop c) hx]

lemma downmix_first_spec (raw : List Nat) (ch : Nat) (out : List Nat)
    (hch : 1 < ch) (h : downmix_to_mono_first raw ch = some out) :
    ∃ pcm, decodeI16 raw = some pcm ∧ out = encodeI16 (specSelectChannel0 ch pcm) := by
  unfold downmix_to_mono_first at h
  cases hdec : decodeI16 raw with
  | none => rw [hdec] at h; simp at h
  | some pcm =>
    rw [hdec] at h
    dsimp only at h
    rw [if_pos hch] at h
    cases hrows : reshapeRows ch pcm with
    | none => rw [hrows] at h; simp at h
    | some rows =>
      rw [hrows] at h
      simp only [Option.some.injEq] at h
      refine ⟨pcm, rfl, ?_⟩
      obtain ⟨c, rfl⟩ : ∃ c, ch = c + 1 := ⟨ch - 1, by omega⟩
      unfold reshapeRows at hrows
      dsimp only at hrows
      by_cases hdvd : pcm.length % (c + 1) = 0
      · rw [if_pos hdvd] at hrows
        simp only [Option.some.injEq] at hrows
        rw [← h, ← hrows]
        unfold chunksOfPos specSelectChannel0
        rw [chunksFuel_headD c pcm.length pcm le_rfl]
      · rw [if_neg hdvd] at hrows
        simp at hrows

lemma downmix_mean_spec (raw : List Nat) (ch : Nat) (out : List Nat)
    (hch : 1 < ch) (h : downmix_to_mono_mean raw ch = some out) :
    ∃ pcm, decodeI16 raw = some pcm ∧ out = encodeI16 (specChannelMean ch pcm) := by
  unfold downmix_to_mono_mean at h
  cases hdec : decodeI16 raw with
  | none => rw [hdec] at h; simp at h
  | some pcm =>
    rw [hdec] at h
    dsimp only at h
    rw [if_pos hch] at h
    cases hrows : reshapeRows ch pcm with
    | none => rw [hrows] at h; simp at h
    | some rows =>
      rw [hrows] at h
      simp only [Option.some.injEq] at h
      refine ⟨pcm, rfl, ?_⟩
      obtain ⟨c, rfl⟩ : ∃ c, ch = c + 1 := ⟨ch - 1, by omega⟩
      unfold reshapeRows at hrows
      dsimp only at hrows
      by_cases hdvd : pcm.length % (c + 1) = 0
      · rw [if_pos hdvd] at hrows
        simp only [Option.some.injEq] at hrows
        rw [← h, ← hrows]
        unfold chunksOfPos specChannelMean
        rw [chunksFuel_mean c pcm.length pcm le_rfl]
      · rw [if_neg hdvd] at hrows
        simp at hrows

lemma pollLoop_all_none (p : ProcModel) (h : ∀ t, p.pollExit t = none) :
    ∀ (fuel tick : Nat),
      pollLoop p tick fuel = (List.replicate fuel CAct.sleep50, false) := by
  intro fuel
  induction fuel with
  | zero => intro tick; rfl
  | succ n ih =>
    intro tick
    simp only [pollLoop, h tick, ih (tick + 1), List.replicate_succ]

lemma pollLoop_sleep_count (p : ProcModel) :
    ∀ (fuel tick : Nat), (pollLoop p tick fuel).1.count CAct.sleep50 ≤ fuel := by
  intro fuel
  induction fuel with
  | zero => intro tick; simp [pollLoop]
  | succ n ih =>
    intro tick
    cases hp : p.pollExit tick with
    | some rc => simp [pollLoop, hp]
    | none =>
      simp only [pollLoop, hp, List.count_cons]
      have := ih (tick + 1)
      split <;> omega

lemma cleanup_twice_eq (p : ProcModel) (tr : List CAct)
    (h : cleanup_model p = Except.ok tr) :
    cleanup_twice p = Except.ok (tr ++ tr) := by
  unfold cleanup_twice
  rw [h]

lemma cleanup_model_eq (p : ProcModel) :
    cleanup_model p = Except.ok
      ((if p.terminateRaises then [] else [CAct.sigterm]) ++
        (pollLoop p 0 graceChecks).1 ++
        (if (pollLoop p 0 graceChecks).2 then []
         else if p.killRaises then [] else [CAct.sigkill])) := by
  unfold cleanup_model
  rcases hlp : pollLoop p 0 graceChecks with ⟨tr, b⟩
  cases ht : p.terminateRaises <;> cases b <;> cases hk : p.killRaises <;>
    simp [tryCall, catchPass, hlp, ht, hk]

/-! ## Claim theorems -/

/-- Claim C1, amended: volume-level extraction scans the lowercased final
hypothesis text for the number words one through ten only, in dictionary
order, with no digit tokens and no zero entry: feeding volume seven
yields level 7, feeding volume 0 and feeding volume zero both yield no
level, any text containing none of the ten number words yields no level,
and when extraction yields no level the volume action is not invoked. -/
theorem volume_level_word_scan :
    parse_volume_level "volume seven" = some 7 ∧
    parse_volume_level "volume 0" = none ∧
    parse_volume_level "volume zero" = none ∧
    (∀ text, (∀ pr ∈ number_map, strContains (pyLower text) pr.1 = false) →
      parse_volume_level text = none) ∧
    (∀ ch raw text acts out, parse_volume_level (pyLower text) = none →
      volume_iter ch raw (some text) = (acts, out) →
      ∀ n, OutAct.volumeAction n ∉ acts) := by
  refine ⟨by decide, by decide, by decide, ?_, ?_⟩
  · intro text h
    simp only [parse_volume_level]
    have hf : number_map.find? (fun p => strContains (pyLower text) p.1) = none := by
      rw [List.find?_eq_none]
      intro x hx
      simp [h x hx]
    rw [hf]
    rfl
  · intro ch raw text acts out hparse hit n
    by_cases hraw : raw = []
    · subst hraw
      simp only [volume_iter, if_pos rfl] at hit
      injection hit with h1 h2
      subst h1
      simp
    · simp only [volume_iter, if_neg hraw] at hit
      cases hdm : downmix_to_mono_mean raw ch <;> rw [hdm] at hit <;> dsimp only at hit
      · injection hit with h1 h2
        subst h1
        simp
      · by_cases htext : pyLower text = ""
        · rw [if_pos htext] at hit
          injection hit with h1 h2
          subst h1
          simp
        · rw [if_neg htext, hparse] at hit
          dsimp only at hit
          injection hit with h1 h2
          subst h1
          simp

/-- Claim C1 counterexample: the claim says feeding volume 0 and feeding
volume zero both yield level 0, but parse_volume_level returns none on
both inputs. -/
theorem volume_level_zero_counterexample :
    parse_volume_level "volume zero" = none ∧
    parse_volume_level "volume 0" = none ∧
    parse_volume_level "volume zero" ≠ some 0 ∧
    parse_volume_level "volume 0" ≠ some 0 := by
  refine ⟨by decide, by decide, by decide, by decide⟩

/-- Claim C1 witness: the amended theorem applied at concrete inputs. -/
theorem volume_level_word_scan_witness :
    parse_volume_level "hello" = none ∧
    OutAct.volumeAction 0 ∉ ([] : List OutAct) := by
  constructor
  · exact volume_level_word_scan.2.2.2.1 "hello" (by decide)
  · exact volume_level_word_scan.2.2.2.2 2 [0, 0, 0, 0] "volume 0" [] Outcome.cont
      (by decide) (by decide) 0

/-- Claim C10: parse_volume_level only ever returns none or a level
between 1 and 10, and the external volume action is never invoked with
level 0 by the volume session loop. -/
theorem volume_level_range :
    (∀ text n, parse_volume_level text = some n → 1 ≤ n ∧ n ≤ 10) ∧
    (∀ ch raw dec acts out, volume_iter ch raw dec = (acts, out) →
      OutAct.volumeAction 0 ∉ acts) := by
  constructor
  · exact parse_volume_level_range
  · intro ch raw dec acts out hit
    by_cases hraw : raw = []
    · subst hraw
      simp only [volume_iter, if_pos rfl] at hit
      injection hit with h1 h2
      subst h1
      simp
    · simp only [volume_iter, if_neg hraw] at hit
      cases hdm : downmix_to_mono_mean raw ch <;> rw [hdm] at hit <;> dsimp only at hit
      · injection hit with h1 h2
        subst h1
        simp
      · cases dec with
        | none =>
          dsimp only at hit
          injection hit with h1 h2
          subst h1
          simp
        | some text =>
          dsimp only at hit
          by_cases htext : pyLower text = ""
          · rw [if_pos htext] at hit
            injection hit with h1 h2
            subst h1
            simp
          · rw [if_neg htext] at hit
            cases hp : parse_volume_level (pyLower text) <;> rw [hp] at hit <;>
              dsimp only at hit
            · injection hit with h1 h2
              subst h1
              simp
            · injection hit with h1 h2
              subst h1
              have hrange := parse_volume_level_range (pyLower text) _ hp
              intro hmem
              simp at hmem
              omega

/-- Claim C10 witness: the theorem applied at concrete inputs. -/
theorem volume_level_range_witness :
    (1 ≤ 7 ∧ 7 ≤ 10) ∧
    OutAct.volumeAction 0 ∉ [OutAct.diag, OutAct.volumeAction 3] := by
  constructor
  · exact volume_level_range.1 "winter fresh volume seven" 7 (by decide)
  · exact volume_level_range.2 2 [0, 0, 0, 0] (some "winter fresh volume three")
      [OutAct.diag, OutAct.volumeAction 3] Outcome.cont (by decide)

/-- Claim C2: in exact mode, handle_result yields the shutdown action
(returning true and printing the SHUTDOWN token) exactly when the
hypothesis text, lowercased and stripped, is string-equal to one of the
configured shutdown phrases; a strict superstring or strict substring of
a phrase p never passes the equality test against p itself. -/
theorem shutdown_exact_match :
    (∀ text, handle_result text = true ↔
      pyStrip (pyLower text) ∈ SHUTDOWN_PHRASES) ∧
    (∀ text, handle_result text = true ↔
      OutAct.token "SHUTDOWN" ∈ (handle_result_full text).1) ∧
    (∀ p, p ∈ SHUTDOWN_PHRASES → ∀ text,
      (properSubstring (pyStrip (pyLower text)) p ∨
        properSubstring p (pyStrip (pyLower text))) →
      (pyStrip (pyLower text) == p) = false) := by
  refine ⟨?_, ?_, ?_⟩
  · intro text
    rw [handle_result_eq]
    by_cases h : pyStrip (pyLower text) = ""
    · rw [if_pos h, h]
      simp only [Bool.false_eq_true, false_iff]
      decide
    · rw [if_neg h]
      exact inList_iff _ _
  · intro text
    unfold handle_result handle_result_full
    by_cases h1 : pyStrip (pyLower text) = ""
    · simp [h1]
    · simp only [h1, if_false]
      cases hin : inList (pyStrip (pyLower text)) SHUTDOWN_PHRASES <;> simp [hin]
  · intro p hp text hsub
    have hne : pyStrip (pyLower text) ≠ p := by
      rcases hsub with ⟨_, hne⟩ | ⟨_, hne⟩
      · exact hne
      · exact fun he => hne he.symm
    cases hb : (pyStrip (pyLower text) == p) with
    | false => rfl
    | true => exact absurd (eq_of_beq hb) hne

/-- Claim C2 witness: the theorem applied at concrete inputs. -/
theorem shutdown_exact_match_witness :
    handle_result "  Winter Fresh STOP " = true ∧
    ((pyStrip (pyLower "sto") == "stop") = false) := by
  constructor
  · exact (shutdown_exact_match.1 "  Winter Fresh STOP ").mpr (by decide)
  · have hps : properSubstring (pyStrip (pyLower "sto")) "stop" := by
      unfold properSubstring
      exact ⟨by decide, by decide⟩
    exact shutdown_exact_match.2.2 "stop" (by decide) "sto" (Or.inl hps)

/-- Claim C3: in open-vocabulary mode, a final hypothesis whose word
count exceeds the configured maximum is rejected regardless of its
confidence values; one whose mean per-word confidence is below the
configured threshold is rejected regardless of its length; and one that
satisfies both thresholds and contains a configured wake phrase as a
substring is accepted as a wake. -/
theorem open_vocab_filtering :
    (∀ (maxW : Nat) (minC : Rat) (r : FinalResult),
      maxW < wordCount (pyStrip (pyLower r.text)) →
      should_wake maxW minC r = false) ∧
    (∀ (maxW : Nat) (minC : Rat) (r : FinalResult),
      r.result ≠ [] → avgConf r.result < minC →
      should_wake maxW minC r = false) ∧
    (∀ (maxW : Nat) (minC : Rat) (r : FinalResult),
      (∃ w ∈ WAKE_WORDS, strContains (pyStrip (pyLower r.text)) w = true) →
      wordCount (pyStrip (pyLower r.text)) ≤ maxW →
      minC ≤ avgConf r.result →
      should_wake maxW minC r = true) := by
  refine ⟨?_, ?_, ?_⟩
  · intro maxW minC r h
    unfold should_wake
    by_cases h1 : pyStrip (pyLower r.text) = ""
    · simp [h1]
    · cases hany : WAKE_WORDS.any (fun w => strContains (pyStrip (pyLower r.text)) w) <;>
        simp [h1, hany, h]
  · intro maxW minC r hne hlow
    unfold should_wake
    by_cases h1 : pyStrip (pyLower r.text) = ""
    · simp [h1]
    · cases hany : WAKE_WORDS.any (fun w => strContains (pyStrip (pyLower r.text)) w)
      · simp [h1, hany]
      · by_cases hlen : maxW < wordCount (pyStrip (pyLower r.text))
        · simp [h1, hany, hlen]
        · have hempty : r.result.isEmpty = false := by
            cases hr : r.result with
            | nil => exact absurd hr hne
            | cons a as => rfl
          simp [h1, hany, hlen, hempty, hlow]
  · intro maxW minC r hw hlen hconf
    have h1 : pyStrip (pyLower r.text) ≠ "" := by
      intro he
      obtain ⟨w, hwmem, hc⟩ := hw
      rw [he] at hc
      have hfw : ∀ w ∈ WAKE_WORDS, strContains "" w = false := by decide
      rw [hfw w hwmem] at hc
      exact Bool.false_ne_true hc
    have hany : WAKE_WORDS.any
        (fun w => strContains (pyStrip (pyLower r.text)) w) = true := by
      rw [List.any_eq_true]
      exact hw
    unfold should_wake
    cases hr : r.result with
    | nil => simp [h1, hany, not_lt.mpr hlen]
    | cons a as =>
      rw [hr] at hconf
      simp [h1, hany, not_lt.mpr hlen, not_lt.mpr hconf]

/-- Claim C3 witness: the theorem applied at concrete hypotheses. -/
theorem open_vocab_filtering_witness :
    should_wake 4 1 ⟨"hey winter fresh blah blah", []⟩ = false ∧
    should_wake 4 1 ⟨"hey winter fresh", [⟨some 0⟩]⟩ = false ∧
    should_wake 4 0 ⟨"hey winter fresh", []⟩ = true := by
  refine ⟨?_, ?_, ?_⟩
  · exact open_vocab_filtering.1 4 1 ⟨"hey winter fresh blah blah", []⟩ (by decide)
  · refine open_vocab_filtering.2.1 4 1 ⟨"hey winter fresh", [⟨some 0⟩]⟩ (by simp) ?_
    have hv : avgConf [⟨some 0⟩] = 0 := by
      simp [avgConf, confList]
    rw [hv]
    exact zero_lt_one
  · refine open_vocab_filtering.2.2 4 0 ⟨"hey winter fresh", []⟩ ?_ (by decide) ?_
    · exact ⟨"hey winter fresh", by decide, by decide⟩
    · have hv : avgConf ([] : List WordInfo) = 0 := rfl
      rw [hv]

/-- Claim C5: a zero-length pipe read makes each of the three session
loops print a diagnostic on the error channel and exit with status 1,
never continuing and never exiting with the success status. -/
theorem zero_read_fatal :
    (∀ ch dec, volume_iter ch [] dec = ([OutAct.errDiag], Outcome.exitCode 1)) ∧
    (∀ maxW minC ch dec,
      wake_iter maxW minC ch [] dec = ([OutAct.errDiag], Outcome.exitCode 1)) ∧
    (∀ ch dec, shutdown_iter ch [] dec = ([OutAct.errDiag], Outcome.exitCode 1)) ∧
    Outcome.exitCode 1 ≠ Outcome.cont ∧ Outcome.exitCode 1 ≠ Outcome.exitCode 0 := by
  exact ⟨fun ch dec => rfl, fun maxW minC ch dec => rfl, fun ch dec => rfl,
    by decide, by decide⟩

/-- Claim C6, amended: the cleanup routine runs at least once on every
exit route of the shutdown listener session, but not exactly once on all
of them: the fatal-audio-error route runs it once via the finally block,
while the phrase-match and signal routes run it twice (the direct call
plus the finally block). -/
theorem cleanup_at_least_once :
    (∀ r, 1 ≤ cleanupCount r) ∧
    cleanupCount ExitRoute.audioError = 1 ∧
    cleanupCount ExitRoute.phraseMatch = 2 ∧
    cleanupCount ExitRoute.signalInterrupt = 2 := by
  refine ⟨fun r => ?_, by decide, by decide, by decide⟩
  cases r <;> decide

/-- Claim C6 counterexample: on the phrase-match exit route the cleanup
routine runs twice, not exactly once as the claim states. -/
theorem cleanup_exactly_once_counterexample :
    cleanupCount ExitRoute.phraseMatch = 2 ∧
    cleanupCount ExitRoute.phraseMatch ≠ 1 := by
  exact ⟨by decide, by decide⟩

/-- Claim C7: the cleanup routine never raises (process-call exceptions
are swallowed), also when called twice; it sends the termination signal
first, waits at most the bounded grace window (ten 50 ms sleeps, about
500 ms), and if the process never reported an exit during the window it
force-kills it and returns. -/
theorem cleanup_bounded_safe :
    (∀ p, ∃ tr, cleanup_model p = Except.ok tr) ∧
    (∀ p tr, cleanup_model p = Except.ok tr →
      tr.count CAct.sleep50 ≤ graceChecks) ∧
    (∀ p tr, p.terminateRaises = false → cleanup_model p = Except.ok tr →
      tr.head? = some CAct.sigterm) ∧
    (∀ p tr, (∀ t, p.pollExit t = none) → p.killRaises = false →
      cleanup_model p = Except.ok tr → CAct.sigkill ∈ tr) ∧
    (∀ p, ∃ tr, cleanup_twice p = Except.ok tr) := by
  refine ⟨?_, ?_, ?_, ?_, ?_⟩
  · intro p
    exact ⟨_, cleanup_model_eq p⟩
  · intro p tr h
    rw [cleanup_model_eq p] at h
    injection h with h
    subst h
    simp only [List.count_append]
    have h1 : (if p.terminateRaises then ([] : List CAct)
        else [CAct.sigterm]).count CAct.sleep50 = 0 := by
      cases p.terminateRaises <;> rfl
    have h2 := pollLoop_sleep_count p graceChecks 0
    have h3 : (if (pollLoop p 0 graceChecks).2 then ([] : List CAct)
        else if p.killRaises then [] else [CAct.sigkill]).count CAct.sleep50 = 0 := by
      cases (pollLoop p 0 graceChecks).2 <;> cases p.killRaises <;> rfl
    omega
  · intro p tr ht h
    rw [cleanup_model_eq p, ht] at h
    injection h with h
    subst h
    simp [List.singleton_append, List.cons_append, List.head?_cons]
  · intro p tr hpoll hk h
    rw [cleanup_model_eq p, hk, pollLoop_all_none p hpoll graceChecks 0] at h
    simp only [Bool.false_eq_true, if_false] at h
    injection h with h
    subst h
    simp [List.mem_append]
  · intro p
    exact ⟨_, cleanup_twice_eq p _ (cleanup_model_eq p)⟩

/-- Claim C7 witness: the theorem applied to a process that ignores the
termination signal; cleanup still returns, sleeps at most ten times and
force-kills. -/
theorem cleanup_bounded_safe_witness :
    CAct.sigkill ∈
      ([CAct.sigterm] ++ List.replicate 10 CAct.sleep50 ++ [CAct.sigkill]) ∧
    ([CAct.sigterm] ++ List.replicate 10 CAct.sleep50 ++
      [CAct.sigkill]).count CAct.sleep50 ≤ graceChecks := by
  constructor
  · exact cleanup_bounded_safe.2.2.2.1 (ProcModel.mk (fun _ => none) false false)
      ([CAct.sigterm] ++ List.replicate 10 CAct.sleep50 ++ [CAct.sigkill])
      (fun t => rfl) rfl (by rfl)
  · exact cleanup_bounded_safe.2.1 (ProcModel.mk (fun _ => none) false false)
      ([CAct.sigterm] ++ List.replicate 10 CAct.sleep50 ++ [CAct.sigkill])
      (by rfl)

/-- Claim C8: an accepted wake or a matched shutdown phrase makes the
loop print the one-line token and exit with the success status, while a
volume command (matched or not) and a rejected or unmatched hypothesis
leave the loop continuing. -/
theorem terminal_vs_continuing_events :
    (∀ (maxW : Nat) (minC : Rat) ch raw r m, raw ≠ [] →
      downmix_to_mono_mean raw ch = some m →
      should_wake maxW minC r = true →
      wake_iter maxW minC ch raw (some r) =
        ([OutAct.diag, OutAct.token "WAKE"], Outcome.exitCode 0)) ∧
    (∀ ch raw text m, raw ≠ [] →
      downmix_to_mono_first raw ch = some m →
      handle_result text = true →
      shutdown_iter ch raw (some text) =
        ((handle_result_full text).1, Outcome.exitCode 0) ∧
      OutAct.token "SHUTDOWN" ∈ (handle_result_full text).1) ∧
    (∀ ch raw dec m, raw ≠ [] →
      downmix_to_mono_mean raw ch = some m →
      (volume_iter ch raw dec).2 = Outcome.cont) ∧
    (∀ (maxW : Nat) (minC : Rat) ch raw r m, raw ≠ [] →
      downmix_to_mono_mean raw ch = some m →
      should_wake maxW minC r = false →
      (wake_iter maxW minC ch raw (some r)).2 = Outcome.cont) ∧
    (∀ ch raw text m, raw ≠ [] →
      downmix_to_mono_first raw ch = some m →
      handle_result text = false →
      (shutdown_iter ch raw (some text)).2 = Outcome.cont) := by
  refine ⟨?_, ?_, ?_, ?_, ?_⟩
  · intro maxW minC ch raw r m hraw hdm hsw
    have htext : pyLower r.text ≠ "" :=
      pyStrip_ne_of _ (should_wake_text_ne _ _ _ hsw)
    unfold wake_iter
    rw [if_neg hraw, hdm]
    dsimp only
    rw [if_neg htext, if_pos hsw]
  · intro ch raw text m hraw hdm hhr
    have hacts := handle_result_full_acts_of_true text hhr
    constructor
    · unfold shutdown_iter
      rw [if_neg hraw, hdm]
      dsimp only
      rw [if_pos (show (handle_result_full text).2 = true from hhr)]
    · rw [hacts]
      simp
  · intro ch raw dec m hraw hdm
    unfold volume_iter
    rw [if_neg hraw, hdm]
    dsimp only
    cases dec with
    | none => rfl
    | some text =>
      dsimp only
      by_cases htext : pyLower text = ""
      · rw [if_pos htext]
      · rw [if_neg htext]
        cases hp : parse_volume_level (pyLower text) <;> rfl
  · intro maxW minC ch raw r m hraw hdm hsw
    unfold wake_iter
    rw [if_neg hraw, hdm]
    dsimp only
    by_cases htext : pyLower r.text = ""
    · rw [if_pos htext]
    · rw [if_neg htext, if_neg (by rw [hsw]; exact Bool.false_ne_true)]
  · intro ch raw text m hraw hdm hhr
    have h2 : (handle_result_full text).2 = false := hhr
    unfold shutdown_iter
    rw [if_neg hraw, hdm]
    dsimp only
    rw [if_neg (by rw [h2]; exact Bool.false_ne_true)]

/-- Claim C8 witness: the theorem applied at concrete frames, decoder
results and configurations. -/
theorem terminal_vs_continuing_events_witness :
    wake_iter 4 1 2 [0, 0, 0, 0] (some ⟨"hey winter fresh", []⟩) =
      ([OutAct.diag, OutAct.token "WAKE"], Outcome.exitCode 0) ∧
    (volume_iter 2 [0, 0, 0, 0] (some "winter fresh volume three")).2 =
      Outcome.cont ∧
    (shutdown_iter 2 [0, 0, 0, 0] (some "stop") =
      ((handle_result_full "stop").1, Outcome.exitCode 0) ∧
      OutAct.token "SHUTDOWN" ∈ (handle_result_full "stop").1) := by
  refine ⟨?_, ?_, ?_⟩
  · exact terminal_vs_continuing_events.1 4 1 2 [0, 0, 0, 0]
      ⟨"hey winter fresh", []⟩ [0, 0] (by decide) (by decide) (by decide)
  · exact terminal_vs_continuing_events.2.2.1 2 [0, 0, 0, 0]
      (some "winter fresh volume three") [0, 0] (by decide) (by decide)
  · exact terminal_vs_continuing_events.2.1 2 [0, 0, 0, 0] "stop" [0, 0]
      (by decide) (by decide) (by decide)

/-- Claim C9 (code bug): a full chunk read is a multiple of 2 times
the channel count, but the raw pipe read can return fewer bytes, and a
3-byte short read with 2 channels is not such a multiple: the shutdown
listener passes it to downmix where the numpy decode fails, so the
session loop crashes instead of delivering a well-formed frame. -/
theorem short_read_breaks_frame_invariant :
    ((2 * 2) ∣ chunk_bytes 2) ∧
    (([0, 0, 0] : List Nat).length ≤ chunk_bytes 2 ∧
      ([0, 0, 0] : List Nat) ≠ [] ∧
      ¬ ((2 * 2) ∣ ([0, 0, 0] : List Nat).length) ∧
      downmix_to_mono_first [0, 0, 0] 2 = none) ∧
    (∀ dec, shutdown_iter 2 [0, 0, 0] dec = ([], Outcome.crashed)) := by
  exact ⟨by decide, ⟨by decide, by decide, by decide, by decide⟩, fun dec => rfl⟩

/-- Claim C4, amended: only the shutdown listener downmix selects the
samples of channel 0; the wake and volume listener downmix averages the
channels (truncated toward zero), as shown by a frame where the two
policies disagree. -/
theorem downmix_policies :
    (∀ raw ch out, 1 < ch → downmix_to_mono_first raw ch = some out →
      ∃ pcm, decodeI16 raw = some pcm ∧
        out = encodeI16 (specSelectChannel0 ch pcm)) ∧
    (∀ raw ch out, 1 < ch → downmix_to_mono_mean raw ch = some out →
      ∃ pcm, decodeI16 raw = some pcm ∧
        out = encodeI16 (specChannelMean ch pcm)) ∧
    downmix_to_mono_mean [100, 0, 0, 0] 2 = some [50, 0] ∧
    downmix_to_mono_first [100, 0, 0, 0] 2 = some [100, 0] := by
  exact ⟨fun raw ch out => downmix_first_spec raw ch out,
    fun raw ch out => downmix_mean_spec raw ch out, by decide, by decide⟩

/-- Claim C4 counterexample: on the frame holding the two 16-bit samples
100 and 0 with 2 channels, the wake and volume downmix produces the mean
sample 50, not the channel-0 sample 100, so downmixing does not select
channel 0 in those scripts. -/
theorem downmix_channel0_counterexample :
    downmix_to_mono_mean [100, 0, 0, 0] 2 = some [50, 0] ∧
    decodeI16 [100, 0, 0, 0] = some [100, 0] ∧
    encodeI16 (specSelectChannel0 2 [100, 0]) = [100, 0] ∧
    ([50, 0] : List Nat) ≠ [100, 0] := by
  exact ⟨by decide, by decide, by decide, by decide⟩

/-- Claim C4 witness: the amended theorem applied at a concrete frame. -/
theorem downmix_policies_witness :
    ∃ pcm, decodeI16 [100, 0, 0, 0] = some pcm ∧
      ([100, 0] : List Nat) = encodeI16 (specSelectChannel0 2 pcm) := by
  exact downmix_policies.1 [100, 0, 0, 0] 2 [100, 0] (by decide) (by decide)

end Winterfresh
